import Mathlib

/-!
Verification of the MF Advisor backend (`src/main.py`) against its
natural-language specification.

Shallow-embedding conventions:

* Python `datetime` values (always constructed at midnight via
  `datetime(year, month, day)`) are modelled by their proleptic Gregorian
  ordinal (`Date := ℕ`, days since 0000-12-31, matching CPython's
  `date.toordinal`).  `datetime` comparison, equality and `timedelta.days`
  subtraction agree with the corresponding `ℕ`/`ℤ` operations under this
  encoding.  `parse_date`/`format_date` are inverse string conversions and
  are dropped; NAV observations carry their `Date` directly.
* Python floats used for money/NAV arithmetic are modelled by `ℚ`
  (exact field arithmetic); the only transcendental operation,
  `pow(x, 1/years)`, is modelled by `Real.rpow`.
* `datetime.now()` is modelled by a day ordinal `nowDay` plus the number
  of already elapsed seconds of that day, `nowSec` (`nowSec < 86400`).
* Python `round(x, n)` is modelled by `round (x * 10^n) / 10^n`
  (half-up instead of CPython's float half-even; no value in the claims
  sits on a tie boundary).
* Dict fields that are pure display metadata (fund names, emojis,
  category labels used only for echoing, glossary text, messages) are
  omitted; every field that influences control flow, ordering or a
  claimed output is kept.
-/

/-! ## Dates (Python `datetime` at midnight, as Gregorian ordinals) -/

abbrev Date := ℕ

def isLeap (y : ℕ) : Bool :=
  (y % 4 == 0 && y % 100 != 0) || (y % 400 == 0)

/-- Days in the months strictly before month `m` of a year with leap flag. -/
def daysBeforeMonth (leap : Bool) (m : ℕ) : ℕ :=
  let base :=
    match m with
    | 1 => 0 | 2 => 31 | 3 => 59 | 4 => 90 | 5 => 120 | 6 => 151
    | 7 => 181 | 8 => 212 | 9 => 243 | 10 => 273 | 11 => 304 | 12 => 334
    | _ => 0
  base + (if leap && decide (3 ≤ m) then 1 else 0)

/-- Python `datetime(year, month, day)` as its Gregorian ordinal
(`date.toordinal`): day 1 is 0001-01-01. -/
def datetime (year month day : ℕ) : Date :=
  365 * (year - 1) + (year - 1) / 4 - (year - 1) / 100 + (year - 1) / 400 +
    daysBeforeMonth (isLeap year) month + day

/-! ## NAV store (`NAV_DATA_MAP`) -/

/-- One `{date, nav}` entry of a scheme's `data` list. -/
structure NavEntry where
  date : Date
  nav : ℚ
deriving DecidableEq

/-- One scheme of `NAV_DATA_MAP` (`scheme_name`/`fund_house` display
metadata omitted). -/
structure NavScheme where
  data : List NavEntry
deriving DecidableEq

/-- `NAV_DATA_MAP`: scheme code to scheme, as an association list in
insertion order. -/
abbrev NavMap := List (ℕ × NavScheme)

/-- Result of `get_nav_on_date`: `None`, the `BEFORE_FUND_START` error
dict, or a `{nav, date, exact_match}` dict. -/
inductive NavResult where
  | notFound
  | inceptionError (fund_start_date : Date)
  | navPoint (nav : ℚ) (date : Date) (exact_match : Bool)
deriving DecidableEq

/-- `sorted(all_dates)[0]` of the scheme's entry dates: the oldest date,
`none` on an empty list. -/
def fundStartDate (data : List NavEntry) : Option Date :=
  match data.map NavEntry.date with
  | [] => none
  | d :: ds => some (ds.foldl min d)

/-- Python's stable `sort(key=date, reverse=True)` head: the first
occurring entry with the maximal date. -/
def laterEntry (a b : NavEntry) : NavEntry :=
  if a.date < b.date then b else a

/-- `get_nav_on_date(scheme_code, investment_date)` from `src/main.py`. -/
def get_nav_on_date (m : NavMap) (scheme_code : ℕ) (target_date : Date) :
    NavResult :=
  match m.lookup scheme_code with
  | none => .notFound
  | some nav_scheme =>
    match fundStartDate nav_scheme.data with
    | none => .notFound
    | some fund_start_date =>
      if target_date < fund_start_date then
        .inceptionError fund_start_date
      else
        match nav_scheme.data.find? (fun e => e.date == target_date) with
        | some e => .navPoint e.nav e.date true
        | none =>
          match nav_scheme.data.filter (fun e => decide (e.date ≤ target_date)) with
          | [] => .notFound
          | e :: es =>
            let nearest := es.foldl laterEntry e
            .navPoint nearest.nav nearest.date false

/-- `get_current_nav(scheme_code)` from `src/main.py`. -/
def get_current_nav (m : NavMap) (scheme_code : ℕ) : Option NavEntry :=
  match m.lookup scheme_code with
  | none => none
  | some nav_scheme =>
    match nav_scheme.data with
    | [] => none
    | e :: es => some (es.foldl laterEntry e)

/-! ## Return calculator (`calculate_returns`) -/

/-- Python `round(x, 2)` on exact rationals (round-half-up via the
computable `Rat.floor`; `round q = ⌊q + 1/2⌋`). -/
def round2 (q : ℚ) : ℚ := (⌊q * 100 + 1 / 2⌋ : ℚ) / 100

/-- Python `round(x, 4)` on exact rationals. -/
def round4 (q : ℚ) : ℚ := (⌊q * 10000 + 1 / 2⌋ : ℚ) / 10000

/-- Python `round(x, 2)` on a real (the XIRR value). -/
noncomputable def round2R (x : ℝ) : ℝ := ((round (x * 100) : ℤ) : ℝ) / 100

/-- The `xirr` computation of `calculate_returns`:
`(pow(current_value/investment_amount, 1/years) - 1) * 100` when
`years > 0`, else `0`. -/
noncomputable def xirrRaw (investment_amount current_value years : ℚ) : ℝ :=
  if 0 < years then
    (((current_value / investment_amount : ℚ) : ℝ) ^ ((1 : ℝ) / ((years : ℚ) : ℝ)) - 1) * 100
  else 0

/-- The success dict of `calculate_returns` (scheme name / fund house
display strings omitted). -/
structure InvestResult where
  scheme_code : ℕ
  amount : ℚ
  investment_date : Date
  purchase_nav : ℚ
  purchase_date : Date
  exact_date_match : Bool
  current_nav : ℚ
  current_date : Date
  current_value : ℚ
  returns_absolute : ℚ
  returns_percentage : ℚ
  returns_xirr : ℝ
  units : ℚ
  duration_days : ℤ
  duration_years : ℚ

/-- The error dicts `calculate_returns` can return. -/
inductive CalcError where
  | navNotAvailable
  | beforeFundStart (fund_start_date : Date)
  | currentNavNotAvailable
deriving DecidableEq

inductive CalcResult where
  | err (e : CalcError)
  | ok (r : InvestResult)

/-- The `'error'` information of a `calculate_returns` result
(`some` exactly when the returned dict has `error: True`). -/
def CalcResult.errOf : CalcResult → Option CalcError
  | .err e => some e
  | .ok _ => none

def CalcResult.unitsOf : CalcResult → Option ℚ
  | .err _ => none
  | .ok r => some r.units

def CalcResult.valueOf : CalcResult → Option ℚ
  | .err _ => none
  | .ok r => some r.current_value

def CalcResult.absoluteOf : CalcResult → Option ℚ
  | .err _ => none
  | .ok r => some r.returns_absolute

def CalcResult.percentageOf : CalcResult → Option ℚ
  | .err _ => none
  | .ok r => some r.returns_percentage

def CalcResult.daysOf : CalcResult → Option ℤ
  | .err _ => none
  | .ok r => some r.duration_days

noncomputable def CalcResult.xirrOf : CalcResult → Option ℝ
  | .err _ => none
  | .ok r => some r.returns_xirr

/-- `calculate_returns(scheme_code, investment_amount, investment_date)`
from `src/main.py`. -/
noncomputable def calculate_returns (m : NavMap) (scheme_code : ℕ)
    (investment_amount : ℚ) (investment_date : Date) : CalcResult :=
  match get_nav_on_date m scheme_code investment_date with
  | .notFound => .err .navNotAvailable
  | .inceptionError s => .err (.beforeFundStart s)
  | .navPoint purchase_nav pdate exact =>
    match get_current_nav m scheme_code with
    | none => .err .currentNavNotAvailable
    | some current =>
    let units := investment_amount / purchase_nav
    let current_value := units * current.nav
    let absolute_returns := current_value - investment_amount
    let return_percentage := absolute_returns / investment_amount * 100
    let days : ℤ := (current.date : ℤ) - (investment_date : ℤ)
    let years : ℚ := (days : ℚ) / (365.25 : ℚ)
    .ok ⟨scheme_code, round2 investment_amount, investment_date,
      round4 purchase_nav, pdate, exact,
      round4 current.nav, current.date, round2 current_value,
      round2 absolute_returns, round2 return_percentage,
      round2R (xirrRaw investment_amount current_value years),
      round4 units, days, round2 years⟩

/-! ## Comparison engine (`compare_investment`) -/

/-- The `adjustment` block of the comparison response.  The
non-adjusted dict `{adjusted: false}` carries no date fields. -/
structure Adjustment where
  adjusted : Bool
  original_date : Option Date
  adjusted_date : Option Date
  fund2_start_date : Option Date
deriving DecidableEq

structure CompareResult where
  fund1 : InvestResult
  fund2 : InvestResult
  value_difference : ℚ
  percentage_difference : ℚ
  xirr_difference : ℝ
  is_fund2_better : Bool
  adjustment : Adjustment

inductive ValidationReason where
  | amountNotPositive
  | amountBelowMin
  | amountAboveMax
  | dateNotPast
  | dateTooRecent
deriving DecidableEq

/-- Outcome of `compare_investment`: the `HTTPException`s it raises,
the generic 500 produced when an unchecked dict access would raise
(`internalError`), or the success response. -/
inductive CompareOutcome where
  | validationError (r : ValidationReason)
  | fund1NotFound
  | fund2NotFound
  | fund1Error (e : CalcError)
  | fund2OtherError (e : CalcError)
  | cannotCompare (fund2_start_date : Date)
  | internalError
  | ok (res : CompareResult)

def CompareOutcome.isValidationError : CompareOutcome → Bool
  | .validationError _ => true
  | _ => false

def CompareOutcome.isInternalError : CompareOutcome → Bool
  | .internalError => true
  | _ => false

/-- The final response assembly of `compare_investment` (differences are
fund 2 minus fund 1 on the rounded stored fields). -/
noncomputable def mkCompareResult (fund1_returns fund2_returns : InvestResult)
    (adjustment_info : Adjustment) : CompareOutcome :=
  let value_difference := fund2_returns.current_value - fund1_returns.current_value
  let percentage_difference :=
    fund2_returns.returns_percentage - fund1_returns.returns_percentage
  let xirr_difference := fund2_returns.returns_xirr - fund1_returns.returns_xirr
  .ok ⟨fund1_returns, fund2_returns, round2 value_difference,
    round2 percentage_difference, round2R xirr_difference,
    decide (0 < value_difference), adjustment_info⟩

/-- The fund-existence checks, per-fund calculations, realignment and
response assembly of `compare_investment` (everything after the input
validation).  In the realignment branch the source recomputes fund 2 at
its start date but never re-checks that result for an error; if it were
an error dict, the later `fund2_returns['current']['value']` access
would raise a `KeyError` and surface as the generic 500
(`internalError`).  The `CANNOT_COMPARE` check on the adjusted fund 1
result happens before that access, hence the match order. -/
noncomputable def compare_investment_main (m : NavMap)
    (fund1_code fund2_code : ℕ) (investment_date : Date)
    (investment_amount : ℚ) : CompareOutcome :=
  match m.lookup fund1_code with
  | none => .fund1NotFound
  | some _ =>
    match m.lookup fund2_code with
    | none => .fund2NotFound
    | some _ =>
      match calculate_returns m fund1_code investment_amount investment_date with
      | .err e => .fund1Error e
      | .ok fund1_returns =>
        match calculate_returns m fund2_code investment_amount investment_date with
        | .err (.beforeFundStart fund2_start_date) =>
          match calculate_returns m fund1_code investment_amount fund2_start_date with
          | .err _ => .cannotCompare fund2_start_date
          | .ok fund1_adjusted =>
            match calculate_returns m fund2_code investment_amount fund2_start_date with
            | .err _ => .internalError
            | .ok fund2_adjusted =>
              mkCompareResult fund1_adjusted fund2_adjusted
                ⟨true, some investment_date, some fund2_start_date,
                  some fund2_start_date⟩
        | .err e => .fund2OtherError e
        | .ok fund2_returns =>
          mkCompareResult fund1_returns fund2_returns ⟨false, none, none, none⟩

/-- `compare_investment` from `src/main.py`.  `nowDay`/`nowSec` model
`datetime.now()` (day ordinal plus elapsed seconds of the day, so
`invest_date.date() >= today.date()` is `nowDay ≤ investment_date` and
the `timedelta(days=30)` comparison is carried out in seconds over `ℤ`). -/
noncomputable def compare_investment (m : NavMap) (nowDay nowSec : ℕ)
    (fund1_code fund2_code : ℕ) (investment_date : Date)
    (investment_amount : ℚ) : CompareOutcome :=
  if investment_amount ≤ 0 then .validationError .amountNotPositive
  else if investment_amount < 500 then .validationError .amountBelowMin
  else if 100000000 < investment_amount then .validationError .amountAboveMax
  else if nowDay ≤ investment_date then .validationError .dateNotPast
  else if ((nowDay : ℤ) * 86400 + (nowSec : ℤ)) - 30 * 86400 <
      (investment_date : ℤ) * 86400 then .validationError .dateTooRecent
  else compare_investment_main m fund1_code fund2_code investment_date
    investment_amount

/-! ## Fund catalog (`FUNDS_DATA`), composite score and ranking -/

/-- The metrics bag fields consulted by `calculate_composite_score` and
the ranking endpoints.  A `none` models an absent key (so that
`metrics.get(k)` is `None`); `metrics.get(k, 0)` is `getD 0`; Python
float truthiness (`if v:`) is `getD 0 ≠ 0` in both cases. -/
structure Metrics where
  is_statistically_reliable : Bool
  cagr : Option ℚ
  rolling_3y : Option ℚ
  consistency_score : Option ℚ
  sharpe : Option ℚ
  max_drawdown : Option ℚ
  sortino : Option ℚ
  calmar_ratio : Option ℚ
  gain_to_pain_ratio : Option ℚ
  positive_months_pct : Option ℚ
  ulcer_index : Option ℚ
  fund_age_years : Option ℚ
deriving DecidableEq

/-- Python truthiness of `metrics.get(k)` / `metrics.get(k, 0)`. -/
def truthy (o : Option ℚ) : Bool := o.getD 0 != 0

def getQ (o : Option ℚ) : ℚ := o.getD 0

/-- `calculate_composite_score(metrics)` from `src/main.py`. -/
def calculate_composite_score (m : Metrics) : ℕ :=
  if !m.is_statistically_reliable then 0
  else
    let cagr := getQ m.cagr
    let s1 := if truthy m.cagr then
        (if cagr > 0.15 then 20 else if cagr > 0.12 then 15
         else if cagr > 0.10 then 10 else if cagr > 0.08 then 5 else 0)
      else 0
    let rolling_3y := getQ m.rolling_3y
    let s2 := if truthy m.rolling_3y then
        (if rolling_3y > 0.15 then 10 else if rolling_3y > 0.12 then 7
         else if rolling_3y > 0.10 then 5 else 0)
      else 0
    let consistency := getQ m.consistency_score
    let s3 := if truthy m.consistency_score then
        (if consistency > 70 then 10 else if consistency > 60 then 7
         else if consistency > 50 then 5 else 0)
      else 0
    let sharpe := getQ m.sharpe
    let s4 := if truthy m.sharpe then
        (if sharpe > 2 then 15 else if sharpe > 1 then 10
         else if sharpe > 0.5 then 5 else 0)
      else 0
    let max_dd := getQ m.max_drawdown
    let s5 := if truthy m.max_drawdown then
        (if max_dd > -0.20 then 10 else if max_dd > -0.30 then 5 else 0)
      else 0
    let sortino := getQ m.sortino
    let s6 := if truthy m.sortino then
        (if sortino > 2 then 5 else if sortino > 1 then 3 else 0)
      else 0
    let calmar := getQ m.calmar_ratio
    let s7 := if truthy m.calmar_ratio then
        (if calmar > 2 then 10 else if calmar > 1 then 7
         else if calmar > 0.5 then 5 else 0)
      else 0
    let gain_to_pain := getQ m.gain_to_pain_ratio
    let s8 := if truthy m.gain_to_pain_ratio then
        (if gain_to_pain > 2 then 10 else if gain_to_pain > 1 then 5 else 0)
      else 0
    let pos_months := getQ m.positive_months_pct
    let s9 := if truthy m.positive_months_pct then
        (if pos_months > 65 then 5 else if pos_months > 55 then 3 else 0)
      else 0
    let ulcer := getQ m.ulcer_index
    let s10 := if truthy m.ulcer_index then
        (if ulcer < 5 then 5 else if ulcer < 10 then 3 else 0)
      else 0
    min (s1 + s2 + s3 + s4 + s5 + s6 + s7 + s8 + s9 + s10) 100

/-- The precomputed `score` object (only `total` is consulted). -/
structure Score where
  total : ℚ
deriving DecidableEq

/-- A `FUNDS_DATA` record (display-only fields omitted; fund names are
the association-list keys, as lists of characters). -/
structure FundRecord where
  canonical_code : Option ℕ
  metrics : Metrics
  score : Option Score
  main_category : Option (List Char)
  riskometer : Option (List Char)
deriving DecidableEq

/-- `FUNDS_DATA` in insertion order: fund display name to record. -/
abbrev FundsData := List (List Char × FundRecord)

/-- Python `needle in haystack` substring containment on strings. -/
def occursIn (needle : List Char) : List Char → Bool
  | [] => needle.isEmpty
  | c :: cs => needle.isPrefixOf (c :: cs) || occursIn needle cs

def lowerStr (s : List Char) : List Char := s.map Char.toLower

/-- Python `round(x, 1)`. -/
def round1 (q : ℚ) : ℚ := (⌊q * 10 + 1 / 2⌋ : ℚ) / 10

/-- A `/api/funds/search` result row (display-only fields omitted). -/
structure SearchRow where
  name : List Char
  code : Option ℕ
  cagr : Option ℚ
  fund_age : Option ℚ
  is_reliable : Bool
  composite_score : ℕ
  score : Option Score
deriving DecidableEq

structure SearchFilters where
  reliable_only : Bool
  min_age : ℚ
  min_cagr : ℚ
deriving DecidableEq

structure SearchResponse where
  query : List Char
  filters : Option SearchFilters
  results : List SearchRow
deriving DecidableEq

/-- The filtered, unsorted rows of `search_funds`. -/
def searchMatches (fd : FundsData) (q : List Char)
    (reliable_only : Bool) (min_age min_cagr : ℚ) : List SearchRow :=
  let query := lowerStr q
  fd.filterMap fun nd =>
    let name := nd.1
    let data := nd.2
    if !occursIn query (lowerStr name) then none
    else
      let metrics := data.metrics
      let is_reliable := metrics.is_statistically_reliable
      let fund_age := getQ metrics.fund_age_years
      let cagr := getQ metrics.cagr
      if reliable_only && !is_reliable then none
      else if min_age > 0 && (!truthy metrics.fund_age_years || fund_age < min_age) then none
      else if min_cagr > 0 && (!truthy metrics.cagr || cagr < min_cagr) then none
      else some ⟨name, data.canonical_code,
        (if truthy metrics.cagr then some (round2 (cagr * 100)) else none),
        (if truthy metrics.fund_age_years then some (round1 fund_age) else none),
        is_reliable, calculate_composite_score metrics, data.score⟩

/-- The sort key of `search_funds`:
`(x["score"]["total"] if x.get("score") else x["composite_score"], x["cagr"] or 0)`. -/
def searchKey (r : SearchRow) : ℚ × ℚ :=
  (match r.score with
   | some s => s.total
   | none => (r.composite_score : ℚ),
   r.cagr.getD 0)

/-- Lexicographic `≤` on sort-key pairs. -/
def pairLe (a b : ℚ × ℚ) : Bool :=
  a.1 < b.1 || (a.1 == b.1 && decide (a.2 ≤ b.2))

/-- The comparator realising Python's stable `sort(key=searchKey,
reverse=True)`: keep `a` before `b` iff `b`'s key is `≤` `a`'s. -/
def searchLe (a b : SearchRow) : Bool := pairLe (searchKey b) (searchKey a)

def searchSorted (fd : FundsData) (q : List Char)
    (reliable_only : Bool) (min_age min_cagr : ℚ) : List SearchRow :=
  (searchMatches fd q reliable_only min_age min_cagr).mergeSort searchLe

/-- `search_funds(q, reliable_only, min_age, min_cagr)` from `src/main.py`. -/
def search_funds (fd : FundsData) (q : List Char)
    (reliable_only : Bool) (min_age min_cagr : ℚ) : SearchResponse :=
  if q.length < 2 then ⟨q, none, []⟩
  else ⟨q, some ⟨reliable_only, min_age, min_cagr⟩,
    (searchSorted fd q reliable_only min_age min_cagr).take 20⟩

/-- An `/api/funds/all` result row.  The source dict carries no
`"score"` key, so `score` is always `none`; it is kept because the sort
lambda still does `x.get("score")`. -/
structure AllRow where
  name : List Char
  code : Option ℕ
  cagr : Option ℚ
  fund_age : ℚ
  is_reliable : Bool
  composite_score : ℕ
  score : Option Score
deriving DecidableEq

structure AllResponse where
  total : ℕ
  reliable_count : ℕ
  funds : List AllRow
deriving DecidableEq

/-- Sort key shared by `get_all_funds` and `get_top_funds`:
`x["score"]["total"] if x.get("score") else x["composite_score"]`. -/
def scoreOrComposite (score : Option Score) (composite : ℕ) : ℚ :=
  match score with
  | some s => s.total
  | none => (composite : ℚ)

def allKey (r : AllRow) : ℚ := scoreOrComposite r.score r.composite_score

def allLe (a b : AllRow) : Bool := decide (allKey b ≤ allKey a)

/-- `get_all_funds(reliable_only)` from `src/main.py`. -/
def get_all_funds (fd : FundsData) (reliable_only : Bool) : AllResponse :=
  let results := fd.filterMap fun nd =>
    let metrics := nd.2.metrics
    let is_reliable := metrics.is_statistically_reliable
    if reliable_only && !is_reliable then none
    else
      let cagr := getQ metrics.cagr
      some ⟨nd.1, nd.2.canonical_code,
        (if truthy metrics.cagr then some (round2 (cagr * 100)) else none),
        round1 (getQ metrics.fund_age_years), is_reliable,
        calculate_composite_score metrics, none⟩
  let sorted := results.mergeSort allLe
  ⟨sorted.length, (sorted.filter (·.is_reliable)).length, sorted⟩

/-- An `/api/funds/top` result row (display-only fields omitted). -/
structure TopRow where
  name : List Char
  code : Option ℕ
  cagr : Option ℚ
  composite_score : ℕ
  score : Option Score
  fund_age : ℚ
deriving DecidableEq

structure TopResponse where
  count : ℕ
  results : List TopRow
deriving DecidableEq

def topKey (r : TopRow) : ℚ := scoreOrComposite r.score r.composite_score

def topLe (a b : TopRow) : Bool := decide (topKey b ≤ topKey a)

/-- `get_top_funds(limit, category, risk)` from `src/main.py`
(`category`/`risk` of `None` model the absent query parameters). -/
def get_top_funds (fd : FundsData) (limit : ℕ)
    (category risk : Option (List Char)) : TopResponse :=
  let results := fd.filterMap fun nd =>
    let data := nd.2
    let metrics := data.metrics
    if !metrics.is_statistically_reliable then none
    else
      let main_cat := data.main_category.getD ['O','t','h','e','r']
      let risk_level := data.riskometer.getD []
      if (match category with
          | some c => lowerStr c != lowerStr main_cat
          | none => false) then none
      else if (match risk with
          | some rq => !occursIn (lowerStr rq) (lowerStr risk_level)
          | none => false) then none
      else
        let cagr := getQ metrics.cagr
        some ⟨nd.1, data.canonical_code,
          (if truthy metrics.cagr then some (round2 (cagr * 100)) else none),
          calculate_composite_score metrics, data.score,
          round1 (getQ metrics.fund_age_years)⟩
  let sorted := results.mergeSort topLe
  ⟨sorted.length, sorted.take limit⟩

/-! ## Concrete sample NAV data (used by witnesses and scenario claims) -/

/-- The C5 scenario fund: NAV 10.00 on 2023-01-01, latest NAV 15.00 on
2024-01-01. -/
def navX : NavScheme := ⟨[⟨datetime 2023 1 1, 10⟩, ⟨datetime 2024 1 1, 15⟩]⟩

/-- An early-starting fund (data from 2020-01-01). -/
def navA : NavScheme := ⟨[⟨datetime 2020 1 1, 10⟩, ⟨datetime 2024 1 1, 20⟩]⟩

/-- A late-starting fund (data from 2023-06-01). -/
def navB : NavScheme := ⟨[⟨datetime 2023 6 1, 100⟩, ⟨datetime 2024 1 1, 110⟩]⟩

def sampleNav : NavMap := [(100, navX), (1, navA), (2, navB)]

/-- The scenario computation: fund 100 of `sampleNav` (NAV 10.00 on
2023-01-01, latest 15.00 on 2024-01-01), amount 50000, purchase date
01-01-2023. -/
noncomputable def c5Result : CalcResult :=
  calculate_returns sampleNav 100 50000 (datetime 2023 1 1)

/-- Two reliable funds with equal composite scores (CAGR 13% and 14%,
both in the same scoring band) listed in catalog order A then B. -/
def mCexA : Metrics :=
  ⟨true, some (13/100), none, none, none, none, none, none, none, none,
    none, some 5⟩

def mCexB : Metrics :=
  ⟨true, some (14/100), none, none, none, none, none, none, none, none,
    none, some 5⟩

def fdCex : FundsData :=
  [(['A'], ⟨some 11, mCexA, none, none, none⟩),
   (['B'], ⟨some 22, mCexB, none, none, none⟩)]

/-- The `/api/funds/all` row produced for fund A of `fdCex`. -/
def c6RowA : AllRow :=
  ⟨['A'], some 11,
    (if truthy mCexA.cagr then some (round2 (getQ mCexA.cagr * 100)) else none),
    round1 (getQ mCexA.fund_age_years), mCexA.is_statistically_reliable,
    calculate_composite_score mCexA, none⟩

def c6RowB : AllRow :=
  ⟨['B'], some 22,
    (if truthy mCexB.cagr then some (round2 (getQ mCexB.cagr * 100)) else none),
    round1 (getQ mCexB.fund_age_years), mCexB.is_statistically_reliable,
    calculate_composite_score mCexB, none⟩

/-! ## Helper lemmas: minima and maxima by folds -/

lemma foldl_min_mem : ∀ (ds : List ℕ) (d : ℕ), ds.foldl min d ∈ d :: ds
  | [], d => by simp
  | b :: bs, d => by
    have ih := foldl_min_mem bs (min d b)
    simp only [List.foldl_cons]
    rcases List.mem_cons.mp ih with h | h
    · rw [h]
      rcases min_choice d b with hm | hm <;> rw [hm] <;> simp
    · simp [h]

lemma foldl_min_le : ∀ (ds : List ℕ) (d : ℕ) (x : ℕ),
    x ∈ d :: ds → ds.foldl min d ≤ x
  | [], d, x, hx => by
    simp only [List.mem_singleton] at hx
    simp [hx]
  | b :: bs, d, x, hx => by
    simp only [List.foldl_cons]
    have hhead : bs.foldl min (min d b) ≤ min d b :=
      foldl_min_le bs (min d b) (min d b) (List.mem_cons_self _ _)
    rcases List.mem_cons.mp hx with h | h
    · rw [h]; exact le_trans hhead (min_le_left d b)
    · rcases List.mem_cons.mp h with h2 | h2
      · rw [h2]; exact le_trans hhead (min_le_right d b)
      · exact foldl_min_le bs (min d b) x (List.mem_cons_of_mem _ h2)

lemma foldl_laterEntry_mem : ∀ (es : List NavEntry) (e : NavEntry),
    es.foldl laterEntry e ∈ e :: es
  | [], e => by simp
  | b :: bs, e => by
    have ih := foldl_laterEntry_mem bs (laterEntry e b)
    simp only [List.foldl_cons]
    rcases List.mem_cons.mp ih with h | h
    · rw [h]; unfold laterEntry; split <;> simp
    · simp [h]

lemma date_le_foldl_laterEntry : ∀ (es : List NavEntry) (e : NavEntry) (x : NavEntry),
    x ∈ e :: es → x.date ≤ (es.foldl laterEntry e).date
  | [], e, x, hx => by
    simp only [List.mem_singleton] at hx
    simp [hx]
  | b :: bs, e, x, hx => by
    simp only [List.foldl_cons]
    have hhead : (laterEntry e b).date ≤ (bs.foldl laterEntry (laterEntry e b)).date :=
      date_le_foldl_laterEntry bs (laterEntry e b) _ (List.mem_cons_self _ _)
    rcases List.mem_cons.mp hx with h | h
    · subst h
      have : x.date ≤ (laterEntry x b).date := by
        unfold laterEntry; split
        · exact le_of_lt ‹_›
        · exact le_refl _
      exact le_trans this hhead
    · rcases List.mem_cons.mp h with h2 | h2
      · subst h2
        have : x.date ≤ (laterEntry e x).date := by
          unfold laterEntry; split
          · exact le_refl _
          · exact le_of_not_lt ‹_›
        exact le_trans this hhead
      · exact date_le_foldl_laterEntry bs (laterEntry e b) x (List.mem_cons_of_mem _ h2)

/-! ## Helper lemmas: `fundStartDate` computes the minimum date -/

lemma fundStartDate_none_iff (data : List NavEntry) :
    fundStartDate data = none ↔ data = [] := by
  unfold fundStartDate
  cases data <;> simp

lemma fundStartDate_spec (data : List NavEntry) (s : Date)
    (h : fundStartDate data = some s) :
    s ∈ data.map NavEntry.date ∧ ∀ d ∈ data.map NavEntry.date, s ≤ d := by
  unfold fundStartDate at h
  cases hm : data.map NavEntry.date with
  | nil => rw [hm] at h; simp at h
  | cons d ds =>
    rw [hm] at h
    simp only [Option.some.injEq] at h
    rw [← h]
    exact ⟨foldl_min_mem ds d, fun x hx => foldl_min_le ds d x hx⟩

lemma fundStartDate_of_min (data : List NavEntry) (s : Date)
    (hmem : s ∈ data.map NavEntry.date)
    (hmin : ∀ d ∈ data.map NavEntry.date, s ≤ d) :
    fundStartDate data = some s := by
  cases hm : data.map NavEntry.date with
  | nil => rw [hm] at hmem; cases hmem
  | cons d ds =>
    unfold fundStartDate
    rw [hm]
    rw [hm] at hmem hmin
    exact congrArg some
      (le_antisymm (foldl_min_le ds d s hmem) (hmin _ (foldl_min_mem ds d)))

/-! ## Helper lemmas: resolver inversions -/

lemma get_nav_inceptionError_inv {m : NavMap} {code : ℕ} {t s : Date}
    (h : get_nav_on_date m code t = .inceptionError s) :
    ∃ sch, m.lookup code = some sch ∧ fundStartDate sch.data = some s ∧ t < s := by
  unfold get_nav_on_date at h
  cases hlk : m.lookup code with
  | none => simp only [hlk] at h; simp at h
  | some sch =>
    simp only [hlk] at h
    cases hst : fundStartDate sch.data with
    | none => simp only [hst] at h; simp at h
    | some s0 =>
      simp only [hst] at h
      by_cases hc : t < s0
      · rw [if_pos hc] at h
        injection h with h1
        subst h1
        exact ⟨sch, rfl, hst, hc⟩
      · rw [if_neg hc] at h
        cases hf : sch.data.find? (fun e => e.date == t) with
        | some e => simp only [hf] at h; simp at h
        | none =>
          simp only [hf] at h
          cases hfl : sch.data.filter (fun e => decide (e.date ≤ t)) with
          | nil => simp only [hfl] at h; simp at h
          | cons f fs => simp only [hfl] at h; simp at h

lemma get_nav_at_start_navPoint {m : NavMap} {code : ℕ} {s : Date} {sch : NavScheme}
    (hlk : m.lookup code = some sch) (hst : fundStartDate sch.data = some s) :
    ∃ nav d ex, get_nav_on_date m code s = .navPoint nav d ex := by
  obtain ⟨hmem, -⟩ := fundStartDate_spec sch.data s hst
  obtain ⟨e0, he0, he0d⟩ := List.mem_map.mp hmem
  unfold get_nav_on_date
  simp only [hlk, hst]
  rw [if_neg (lt_irrefl s)]
  cases hf : sch.data.find? (fun e => e.date == s) with
  | some e => exact ⟨e.nav, e.date, true, by simp only [hf]⟩
  | none =>
    exact absurd (by simp [he0d]) (List.find?_eq_none.mp hf e0 he0)

lemma get_current_nav_some {m : NavMap} {code : ℕ} {sch : NavScheme}
    (hlk : m.lookup code = some sch) (hne : sch.data ≠ []) :
    ∃ ce, get_current_nav m code = some ce := by
  unfold get_current_nav
  simp only [hlk]
  cases hd : sch.data with
  | nil => exact absurd hd hne
  | cons e es => exact ⟨es.foldl laterEntry e, by simp only [hd]⟩

/-! ## Helper lemmas: `calculate_returns` inversions and evaluation -/

lemma calculate_returns_ok_eq (amt : ℚ) {m : NavMap} {code : ℕ} {d : Date}
    {pnav : ℚ} {pdate : Date} {ex : Bool} {ce : NavEntry}
    (h1 : get_nav_on_date m code d = .navPoint pnav pdate ex)
    (h2 : get_current_nav m code = some ce) :
    calculate_returns m code amt d = .ok ⟨code, round2 amt, d,
      round4 pnav, pdate, ex, round4 ce.nav, ce.date,
      round2 (amt / pnav * ce.nav), round2 (amt / pnav * ce.nav - amt),
      round2 ((amt / pnav * ce.nav - amt) / amt * 100),
      round2R (xirrRaw amt (amt / pnav * ce.nav)
        ((((ce.date : ℤ) - (d : ℤ) : ℤ) : ℚ) / (365.25 : ℚ))),
      round4 (amt / pnav), (ce.date : ℤ) - (d : ℤ),
      round2 ((((ce.date : ℤ) - (d : ℤ) : ℤ) : ℚ) / (365.25 : ℚ))⟩ := by
  unfold calculate_returns
  rw [h1, h2]

lemma calc_errOf_beforeFundStart_inv {m : NavMap} {code : ℕ} {amt : ℚ} {d s : Date}
    (h : (calculate_returns m code amt d).errOf = some (.beforeFundStart s)) :
    get_nav_on_date m code d = .inceptionError s := by
  unfold calculate_returns at h
  cases hg : get_nav_on_date m code d with
  | notFound => rw [hg] at h; simp [CalcResult.errOf] at h
  | inceptionError s0 =>
    rw [hg] at h
    simp only [CalcResult.errOf, Option.some.injEq, CalcError.beforeFundStart.injEq] at h
    rw [h]
  | navPoint p pd e1 =>
    rw [hg] at h
    cases hc : get_current_nav m code with
    | none => rw [hc] at h; simp [CalcResult.errOf] at h
    | some ce => rw [hc] at h; simp [CalcResult.errOf] at h

lemma calc_errOf_none_inv {m : NavMap} {code : ℕ} {amt : ℚ} {d : Date}
    (h : (calculate_returns m code amt d).errOf = none) :
    ∃ r, calculate_returns m code amt d = .ok r := by
  cases hc : calculate_returns m code amt d with
  | err e => rw [hc] at h; simp [CalcResult.errOf] at h
  | ok r => exact ⟨r, rfl⟩

lemma calc_ok_lookup {m : NavMap} {code : ℕ} {amt : ℚ} {d : Date} {r : InvestResult}
    (h : calculate_returns m code amt d = .ok r) :
    ∃ sch, m.lookup code = some sch := by
  unfold calculate_returns at h
  cases hg : get_nav_on_date m code d with
  | notFound => rw [hg] at h; simp at h
  | inceptionError s0 => rw [hg] at h; simp at h
  | navPoint p pd e1 =>
    unfold get_nav_on_date at hg
    cases hlk : m.lookup code with
    | none => rw [hlk] at hg; simp at hg
    | some sch => exact ⟨sch, rfl⟩

/-- Whenever a `calculate_returns` call reports `BEFORE_FUND_START` with
start date `s`, recomputing at `s` itself succeeds: `s` is the fund's own
first observation date, so both the purchase resolution and the latest
NAV exist. -/
lemma calc_realign_ok {m : NavMap} {code : ℕ} {amt amt2 : ℚ} {d s : Date}
    (h : (calculate_returns m code amt d).errOf = some (.beforeFundStart s)) :
    (calculate_returns m code amt2 s).errOf = none := by
  obtain ⟨sch, hlk, hst, -⟩ := get_nav_inceptionError_inv (calc_errOf_beforeFundStart_inv h)
  have hne : sch.data ≠ [] := by
    intro hnil
    rw [(fundStartDate_none_iff sch.data).mpr hnil] at hst
    cases hst
  obtain ⟨nav, dd, ex, hres⟩ := get_nav_at_start_navPoint hlk hst
  obtain ⟨ce, hcur⟩ := get_current_nav_some hlk hne
  rw [calculate_returns_ok_eq amt2 hres hcur]
  rfl


/-! ## Claim C2: exact-match priority and prior-date fallback -/

/-- C2.  For a fund in the NAV store (with distinct observation dates, the
source's stated data invariant) whose first observation date is `s`:
(1) a target date present verbatim in the series resolves to that
observation with `exact_match = true` and the stored NAV;
(2) a target date with a strictly earlier maximal prior observation `e1`
resolves to `e1` with `exact_match = false`;
(3) two target dates strictly between the same pair of consecutive
observations (same maximal prior observation, no exact match) resolve
identically. -/
theorem C2_resolver_exact_and_prior
    (m : NavMap) (code : ℕ) (sch : NavScheme) (s : Date)
    (hlk : m.lookup code = some sch)
    (hnodup : (sch.data.map NavEntry.date).Nodup)
    (hmem : s ∈ sch.data.map NavEntry.date)
    (hmin : ∀ d ∈ sch.data.map NavEntry.date, s ≤ d) :
    (∀ target : Date, ∀ e ∈ sch.data, e.date = target →
        get_nav_on_date m code target = .navPoint e.nav e.date true)
    ∧ (∀ target : Date, ∀ e1 ∈ sch.data, e1.date < target →
        (∀ e ∈ sch.data, e.date ≤ target → e.date ≤ e1.date) →
        get_nav_on_date m code target = .navPoint e1.nav e1.date false)
    ∧ (∀ t1 t2 : Date, ∀ e1 ∈ sch.data, e1.date < t1 → e1.date < t2 →
        (∀ e ∈ sch.data, e.date ≤ t1 → e.date ≤ e1.date) →
        (∀ e ∈ sch.data, e.date ≤ t2 → e.date ≤ e1.date) →
        get_nav_on_date m code t1 = get_nav_on_date m code t2) := by
  have hst := fundStartDate_of_min sch.data s hmem hmin
  have key2 : ∀ target : Date, ∀ e1 ∈ sch.data, e1.date < target →
      (∀ e ∈ sch.data, e.date ≤ target → e.date ≤ e1.date) →
      get_nav_on_date m code target = .navPoint e1.nav e1.date false := by
    intro target e1 he1 hlt hmax
    have hs_le : s ≤ target :=
      le_trans (hmin e1.date (List.mem_map_of_mem _ he1)) (le_of_lt hlt)
    unfold get_nav_on_date
    simp only [hlk, hst]
    rw [if_neg (not_lt.mpr hs_le)]
    have hnone : sch.data.find? (fun x => x.date == target) = none := by
      rw [List.find?_eq_none]
      intro x hx hbeq
      simp only [beq_iff_eq] at hbeq
      have hxle := hmax x hx (le_of_eq hbeq)
      rw [hbeq] at hxle
      exact absurd hxle (not_le.mpr hlt)
    simp only [hnone]
    have hmem_f : e1 ∈ sch.data.filter (fun x => decide (x.date ≤ target)) :=
      List.mem_filter.mpr ⟨he1, by simp [le_of_lt hlt]⟩
    cases hfl : sch.data.filter (fun x => decide (x.date ≤ target)) with
    | nil => rw [hfl] at hmem_f; cases hmem_f
    | cons f fs =>
      rw [hfl] at hmem_f
      have hnm : fs.foldl laterEntry f ∈
          sch.data.filter (fun x => decide (x.date ≤ target)) := by
        rw [hfl]; exact foldl_laterEntry_mem fs f
      obtain ⟨hn_data, hn_le⟩ := List.mem_filter.mp hnm
      simp only [decide_eq_true_eq] at hn_le
      have h1 : e1.date ≤ (fs.foldl laterEntry f).date :=
        date_le_foldl_laterEntry fs f e1 hmem_f
      have h2 : (fs.foldl laterEntry f).date ≤ e1.date := hmax _ hn_data hn_le
      have heq : fs.foldl laterEntry f = e1 :=
        List.inj_on_of_nodup_map hnodup hn_data he1 (le_antisymm h2 h1)
      simp only [heq]
  refine ⟨?_, key2, ?_⟩
  · intro target e he hdate
    have hs_le : s ≤ target := hdate ▸ hmin e.date (List.mem_map_of_mem _ he)
    unfold get_nav_on_date
    simp only [hlk, hst]
    rw [if_neg (not_lt.mpr hs_le)]
    have hsome : (sch.data.find? (fun x => x.date == target)).isSome :=
      List.find?_isSome.mpr ⟨e, he, by simp [hdate]⟩
    cases hf : sch.data.find? (fun x => x.date == target) with
    | none => rw [hf] at hsome; simp at hsome
    | some e2 =>
      have he2 := List.mem_of_find?_eq_some hf
      have hp := List.find?_some hf
      simp only [beq_iff_eq] at hp
      have he2e : e2 = e :=
        List.inj_on_of_nodup_map hnodup he2 he (by rw [hp, hdate])
      subst he2e
      rfl
  · intro t1 t2 e1 he1 h1 h2 hm1 hm2
    rw [key2 t1 e1 he1 h1 hm1, key2 t2 e1 he1 h2 hm2]

/-- Witness for C2: in `sampleNav`, fund 100 resolves 2023-01-01 exactly,
and resolves 2023-07-15 (strictly between its two observations) to the
2023-01-01 observation with `exact_match = false`. -/
theorem C2_resolver_exact_and_prior_witness :
    get_nav_on_date sampleNav 100 (datetime 2023 1 1) =
      .navPoint 10 (datetime 2023 1 1) true
    ∧ get_nav_on_date sampleNav 100 (datetime 2023 7 15) =
      .navPoint 10 (datetime 2023 1 1) false := by
  constructor
  · exact (C2_resolver_exact_and_prior sampleNav 100 navX (datetime 2023 1 1)
      (by decide) (by decide) (by decide) (by decide)).1
      (datetime 2023 1 1) ⟨datetime 2023 1 1, 10⟩ (by decide) rfl
  · exact (C2_resolver_exact_and_prior sampleNav 100 navX (datetime 2023 1 1)
      (by decide) (by decide) (by decide) (by decide)).2.1
      (datetime 2023 7 15) ⟨datetime 2023 1 1, 10⟩ (by decide) (by decide)
      (by decide)

/-! ## Claim C3: inception boundary and not-found conditions -/

/-- C3.  A target date strictly before the fund's minimum observation
date resolves to the `BEFORE_FUND_START` error carrying that minimum
date; an absent scheme code, or one with an empty observation list,
resolves to `None`. -/
theorem C3_inception_boundary (m : NavMap) (code : ℕ) (target : Date) :
    (m.lookup code = none → get_nav_on_date m code target = .notFound)
    ∧ (∀ sch, m.lookup code = some sch → sch.data = [] →
        get_nav_on_date m code target = .notFound)
    ∧ (∀ sch (s : Date), m.lookup code = some sch →
        s ∈ sch.data.map NavEntry.date →
        (∀ d ∈ sch.data.map NavEntry.date, s ≤ d) →
        target < s →
        get_nav_on_date m code target = .inceptionError s) := by
  refine ⟨?_, ?_, ?_⟩
  · intro h
    unfold get_nav_on_date
    simp only [h]
  · intro sch hlk hdata
    unfold get_nav_on_date
    simp only [hlk, (fundStartDate_none_iff sch.data).mpr hdata]
  · intro sch s hlk hmem hmin ht
    unfold get_nav_on_date
    simp only [hlk, fundStartDate_of_min sch.data s hmem hmin]
    rw [if_pos ht]

/-- Witness for C3: fund 2 of `sampleNav` starts on 2023-06-01, so
2023-01-01 yields the inception error; code 999 is absent. -/
theorem C3_inception_boundary_witness :
    get_nav_on_date sampleNav 2 (datetime 2023 1 1) =
      .inceptionError (datetime 2023 6 1)
    ∧ get_nav_on_date sampleNav 999 (datetime 2023 1 1) = .notFound := by
  constructor
  · exact (C3_inception_boundary sampleNav 2 (datetime 2023 1 1)).2.2 navB
      (datetime 2023 6 1) (by decide) (by decide) (by decide) (by decide)
  · exact (C3_inception_boundary sampleNav 999 (datetime 2023 1 1)).1 (by decide)

/-! ## Claim C8: the defensive final `NotFound` branch is unreachable -/

/-- C8.  For a fund present in the store with a non-empty series and a
target date at or after its first observation date, the set of
observations dated `≤ target` is non-empty and the resolver returns a
NAV point, so the final defensive `return None` can never be reached. -/
theorem C8_defensive_branch_unreachable
    (m : NavMap) (code : ℕ) (sch : NavScheme) (s target : Date)
    (hlk : m.lookup code = some sch)
    (hmem : s ∈ sch.data.map NavEntry.date)
    (hmin : ∀ d ∈ sch.data.map NavEntry.date, s ≤ d)
    (hts : s ≤ target) :
    sch.data.filter (fun e => decide (e.date ≤ target)) ≠ []
    ∧ ∃ nav d ex, get_nav_on_date m code target = .navPoint nav d ex := by
  have hst := fundStartDate_of_min sch.data s hmem hmin
  obtain ⟨e0, he0, he0d⟩ := List.mem_map.mp hmem
  have he0f : e0 ∈ sch.data.filter (fun e => decide (e.date ≤ target)) :=
    List.mem_filter.mpr ⟨he0, by simp [he0d, hts]⟩
  refine ⟨List.ne_nil_of_mem he0f, ?_⟩
  unfold get_nav_on_date
  simp only [hlk, hst]
  rw [if_neg (not_lt.mpr hts)]
  cases hf : sch.data.find? (fun e => e.date == target) with
  | some e => exact ⟨e.nav, e.date, true, by simp only [hf]⟩
  | none =>
    cases hfl : sch.data.filter (fun e => decide (e.date ≤ target)) with
    | nil => rw [hfl] at he0f; cases he0f
    | cons f fs =>
      exact ⟨(fs.foldl laterEntry f).nav, (fs.foldl laterEntry f).date, false,
        by simp only [hf, hfl]⟩

/-- Witness for C8 at fund 1 of `sampleNav` and target 2023-01-01. -/
theorem C8_defensive_branch_unreachable_witness :
    navA.data.filter (fun e => decide (e.date ≤ datetime 2023 1 1)) ≠ []
    ∧ ∃ nav d ex, get_nav_on_date sampleNav 1 (datetime 2023 1 1) =
        .navPoint nav d ex :=
  C8_defensive_branch_unreachable sampleNav 1 navA (datetime 2020 1 1)
    (datetime 2023 1 1) (by decide) (by decide) (by decide) (by decide)

/-! ## Helper lemmas: comparison engine case analysis -/

lemma errOf_some_inv {c : CalcResult} {e : CalcError}
    (h : c.errOf = some e) : c = .err e := by
  cases c with
  | err e2 =>
    simp only [CalcResult.errOf, Option.some.injEq] at h
    rw [h]
  | ok r => simp [CalcResult.errOf] at h

/-- The realignment branch of `compare_investment_main`, with its outer
scrutinees fixed, reduced to the two adjusted recomputations. -/
lemma compare_main_realign_eq (m : NavMap) (f1 f2 : ℕ) (d : Date) (amt : ℚ)
    (s : Date) (r1 : InvestResult)
    (hc1 : calculate_returns m f1 amt d = .ok r1)
    (hc2 : calculate_returns m f2 amt d = .err (.beforeFundStart s)) :
    compare_investment_main m f1 f2 d amt =
      match calculate_returns m f1 amt s with
      | .err _ => .cannotCompare s
      | .ok fund1_adjusted =>
        match calculate_returns m f2 amt s with
        | .err _ => .internalError
        | .ok fund2_adjusted =>
          mkCompareResult fund1_adjusted fund2_adjusted
            ⟨true, some d, some s, some s⟩ := by
  obtain ⟨sch1, hlk1⟩ := calc_ok_lookup hc1
  have hg2 := calc_errOf_beforeFundStart_inv
    (show (calculate_returns m f2 amt d).errOf = some (.beforeFundStart s) by
      rw [hc2]; rfl)
  obtain ⟨sch2, hlk2, -, -⟩ := get_nav_inceptionError_inv hg2
  unfold compare_investment_main
  simp only [hlk1, hlk2, hc1, hc2]

lemma compare_main_not_validation (m : NavMap) (f1 f2 : ℕ) (d : Date) (amt : ℚ) :
    (compare_investment_main m f1 f2 d amt).isValidationError = false := by
  unfold compare_investment_main
  repeat first | rfl | split

lemma compare_main_not_internal (m : NavMap) (f1 f2 : ℕ) (d : Date) (amt : ℚ) :
    (compare_investment_main m f1 f2 d amt).isInternalError = false := by
  cases hc1 : calculate_returns m f1 amt d with
  | err e =>
    unfold compare_investment_main
    simp only [hc1]
    repeat first | rfl | split
  | ok r1 =>
    cases hc2 : calculate_returns m f2 amt d with
    | ok r2 =>
      unfold compare_investment_main
      simp only [hc1, hc2]
      repeat first | rfl | split
    | err e =>
      cases e with
      | navNotAvailable =>
        unfold compare_investment_main
        simp only [hc1, hc2]
        repeat first | rfl | split
      | currentNavNotAvailable =>
        unfold compare_investment_main
        simp only [hc1, hc2]
        repeat first | rfl | split
      | beforeFundStart s =>
        rw [compare_main_realign_eq m f1 f2 d amt s r1 hc1 hc2]
        cases calculate_returns m f1 amt s with
        | err e2 => rfl
        | ok r1a =>
          cases hc2s : calculate_returns m f2 amt s with
          | err e3 =>
            exfalso
            have h := @calc_realign_ok m f2 amt amt d s
              (show (calculate_returns m f2 amt d).errOf =
                some (.beforeFundStart s) by rw [hc2]; rfl)
            rw [hc2s] at h
            simp [CalcResult.errOf] at h
          | ok r2a => rfl

/-! ## Claim C10: realignment recomputation of fund 2 cannot fail -/

/-- C10.  Whenever the first fund-2 computation reports
`BEFORE_FUND_START` with start date `s`, recomputing fund 2 at `s`
succeeds (never returns an error value), because `s` is fund 2's own
first observation date and its series is non-empty; consequently the
unguarded accesses to the recomputed fund-2 dict in the realignment
branch cannot fail, and `compare_investment` never produces the
generic internal error. -/
theorem C10_realignment_recompute_safe (m : NavMap) (nowDay nowSec f1 f2 : ℕ)
    (d : Date) (amt : ℚ) (s : Date) :
    ((calculate_returns m f2 amt d).errOf = some (.beforeFundStart s) →
      (calculate_returns m f2 amt s).errOf = none)
    ∧ (compare_investment m nowDay nowSec f1 f2 d amt).isInternalError = false := by
  refine ⟨fun h => calc_realign_ok h, ?_⟩
  unfold compare_investment
  split
  · rfl
  split
  · rfl
  split
  · rfl
  split
  · rfl
  split
  · rfl
  exact compare_main_not_internal m f1 f2 d amt

/-- Witness for C10 at the sample store: fund 2 at 2023-01-01 reports its
2023-06-01 start, and the recomputation at the start date succeeds. -/
theorem C10_realignment_recompute_safe_witness :
    (calculate_returns sampleNav 2 50000 (datetime 2023 1 1)).errOf =
      some (.beforeFundStart (datetime 2023 6 1))
    ∧ (calculate_returns sampleNav 2 50000 (datetime 2023 6 1)).errOf = none
    ∧ (compare_investment sampleNav (datetime 2025 1 1) 0 1 2
        (datetime 2023 1 1) 50000).isInternalError = false := by
  refine ⟨by decide, ?_, ?_⟩
  · exact (C10_realignment_recompute_safe sampleNav (datetime 2025 1 1) 0 1 2
      (datetime 2023 1 1) 50000 (datetime 2023 6 1)).1 (by decide)
  · exact (C10_realignment_recompute_safe sampleNav (datetime 2025 1 1) 0 1 2
      (datetime 2023 1 1) 50000 (datetime 2023 6 1)).2

/-! ## Claim C1: realignment behaviour of the comparison engine -/

/-- C1.  When validation passes, fund 1's computation at the requested
date succeeds and fund 2's reports `BEFORE_FUND_START` with start `s`:
if fund 1's recomputation at `s` errors the comparison fails with the
`CANNOT_COMPARE` error carrying `s`; otherwise the response uses the
recomputations of both funds at `s` and carries adjustment metadata
`adjusted = true`, `original_date` = the requested date and
`adjusted_date = s`. -/
theorem C1_realignment (m : NavMap) (nowDay nowSec f1 f2 : ℕ) (d : Date)
    (amt : ℚ) (s : Date)
    (hamin : 500 ≤ amt) (hamax : amt ≤ 100000000)
    (hd1 : d < nowDay)
    (hd2 : (d : ℤ) * 86400 ≤ ((nowDay : ℤ) * 86400 + (nowSec : ℤ)) - 30 * 86400)
    (hf1 : (calculate_returns m f1 amt d).errOf = none)
    (hf2 : (calculate_returns m f2 amt d).errOf = some (.beforeFundStart s)) :
    (∀ e : CalcError, (calculate_returns m f1 amt s).errOf = some e →
      compare_investment m nowDay nowSec f1 f2 d amt = .cannotCompare s)
    ∧ ((calculate_returns m f1 amt s).errOf = none →
      ∃ res, compare_investment m nowDay nowSec f1 f2 d amt = .ok res ∧
        res.adjustment = ⟨true, some d, some s, some s⟩ ∧
        .ok res.fund1 = calculate_returns m f1 amt s ∧
        .ok res.fund2 = calculate_returns m f2 amt s) := by
  obtain ⟨r1, hr1⟩ := calc_errOf_none_inv hf1
  have hb : calculate_returns m f2 amt d = .err (.beforeFundStart s) :=
    errOf_some_inv hf2
  have hcmp : compare_investment m nowDay nowSec f1 f2 d amt =
      compare_investment_main m f1 f2 d amt := by
    unfold compare_investment
    rw [if_neg (not_le.mpr (lt_of_lt_of_le (by norm_num) hamin)),
      if_neg (not_lt.mpr hamin), if_neg (not_lt.mpr hamax),
      if_neg (not_le.mpr hd1), if_neg (not_lt.mpr hd2)]
  rw [hcmp, compare_main_realign_eq m f1 f2 d amt s r1 hr1 hb]
  constructor
  · intro e he
    rw [errOf_some_inv he]
  · intro hok
    obtain ⟨r1a, hr1a⟩ := calc_errOf_none_inv hok
    obtain ⟨r2a, hr2a⟩ := calc_errOf_none_inv (calc_realign_ok hf2)
    rw [hr1a, hr2a]
    exact ⟨_, rfl, rfl, rfl, rfl⟩

/-- Witness for C1: comparing fund 1 against the late-starting fund 2 of
`sampleNav` from 2023-01-01 realigns both legs to 2023-06-01 with the
adjustment metadata, and both adjusted legs are the recomputations. -/
theorem C1_realignment_witness :
    (calculate_returns sampleNav 1 50000 (datetime 2023 1 1)).errOf = none
    ∧ (calculate_returns sampleNav 2 50000 (datetime 2023 1 1)).errOf =
        some (.beforeFundStart (datetime 2023 6 1))
    ∧ (calculate_returns sampleNav 1 50000 (datetime 2023 6 1)).errOf = none
    ∧ (∃ res, compare_investment sampleNav (datetime 2025 1 1) 0 1 2
          (datetime 2023 1 1) 50000 = .ok res ∧
        res.adjustment = ⟨true, some (datetime 2023 1 1),
          some (datetime 2023 6 1), some (datetime 2023 6 1)⟩ ∧
        .ok res.fund1 = calculate_returns sampleNav 1 50000 (datetime 2023 6 1) ∧
        .ok res.fund2 = calculate_returns sampleNav 2 50000 (datetime 2023 6 1)) := by
  refine ⟨by decide, by decide, by decide, ?_⟩
  exact (C1_realignment sampleNav (datetime 2025 1 1) 0 1 2 (datetime 2023 1 1)
    50000 (datetime 2023 6 1) (by decide) (by decide) (by decide)
    (by decide) (by decide) (by decide)).2 (by decide)

/-! ## Claim C4: validation boundaries -/

/-- C4.  Amounts of exactly 500 and exactly 100000000 pass validation
(under an otherwise valid purchase date); amounts below 500 or above
100000000 are rejected with a validation error irrespective of the
stores (i.e. before any computation); a purchase date on or after
today's date is rejected; a purchase date exactly 30 days before now is
accepted while one exactly 29 days before now is rejected. -/
theorem C4_validation_boundaries (m : NavMap) (nowDay nowSec f1 f2 : ℕ)
    (d : Date) (amt : ℚ) :
    (amt = 500 → d < nowDay →
      (d : ℤ) * 86400 ≤ ((nowDay : ℤ) * 86400 + (nowSec : ℤ)) - 30 * 86400 →
      (compare_investment m nowDay nowSec f1 f2 d amt).isValidationError = false)
    ∧ (amt = 100000000 → d < nowDay →
      (d : ℤ) * 86400 ≤ ((nowDay : ℤ) * 86400 + (nowSec : ℤ)) - 30 * 86400 →
      (compare_investment m nowDay nowSec f1 f2 d amt).isValidationError = false)
    ∧ (amt < 500 →
      (compare_investment m nowDay nowSec f1 f2 d amt).isValidationError = true)
    ∧ (100000000 < amt →
      compare_investment m nowDay nowSec f1 f2 d amt =
        .validationError .amountAboveMax)
    ∧ (500 ≤ amt → amt ≤ 100000000 → nowDay ≤ d →
      compare_investment m nowDay nowSec f1 f2 d amt =
        .validationError .dateNotPast)
    ∧ (500 ≤ amt → amt ≤ 100000000 → 30 ≤ nowDay → d = nowDay - 30 →
      (compare_investment m nowDay nowSec f1 f2 d amt).isValidationError = false)
    ∧ (500 ≤ amt → amt ≤ 100000000 → 29 ≤ nowDay → nowSec < 86400 →
      d = nowDay - 29 →
      compare_investment m nowDay nowSec f1 f2 d amt =
        .validationError .dateTooRecent) := by
  have hpass : 500 ≤ amt → amt ≤ 100000000 → ¬(d ≥ nowDay) →
      (d : ℤ) * 86400 ≤ ((nowDay : ℤ) * 86400 + (nowSec : ℤ)) - 30 * 86400 →
      (compare_investment m nowDay nowSec f1 f2 d amt).isValidationError =
        false := by
    intro h1 h2 h3 h4
    unfold compare_investment
    rw [if_neg (not_le.mpr (lt_of_lt_of_le (by norm_num) h1)),
      if_neg (not_lt.mpr h1), if_neg (not_lt.mpr h2),
      if_neg h3, if_neg (not_lt.mpr h4)]
    exact compare_main_not_validation m f1 f2 d amt
  refine ⟨?_, ?_, ?_, ?_, ?_, ?_, ?_⟩
  · intro ha h1 h2
    exact hpass (by rw [ha]) (by rw [ha]; norm_num) (not_le.mpr h1) h2
  · intro ha h1 h2
    exact hpass (by rw [ha]; norm_num) (by rw [ha]) (not_le.mpr h1) h2
  · intro ha
    unfold compare_investment
    by_cases h0 : amt ≤ 0
    · rw [if_pos h0]; rfl
    · rw [if_neg h0, if_pos ha]; rfl
  · intro ha
    unfold compare_investment
    rw [if_neg (not_le.mpr (lt_trans (by norm_num) ha)),
      if_neg (not_lt.mpr (le_of_lt (lt_trans (by norm_num) ha))), if_pos ha]
  · intro h1 h2 hd
    unfold compare_investment
    rw [if_neg (not_le.mpr (lt_of_lt_of_le (by norm_num) h1)),
      if_neg (not_lt.mpr h1), if_neg (not_lt.mpr h2), if_pos hd]
  · intro h1 h2 h30 hd
    subst hd
    have hlt : nowDay - 30 < nowDay := by omega
    have hsec : ((nowDay - 30 : ℕ) : ℤ) * 86400 ≤
        ((nowDay : ℤ) * 86400 + (nowSec : ℤ)) - 30 * 86400 := by omega
    exact hpass h1 h2 (not_le.mpr hlt) hsec
  · intro h1 h2 h29 hsec hd
    subst hd
    have hlt : nowDay - 29 < nowDay := by omega
    have hcond : ((nowDay : ℤ) * 86400 + (nowSec : ℤ)) - 30 * 86400 <
        ((nowDay - 29 : ℕ) : ℤ) * 86400 := by omega
    unfold compare_investment
    rw [if_neg (not_le.mpr (lt_of_lt_of_le (by norm_num) h1)),
      if_neg (not_lt.mpr h1), if_neg (not_lt.mpr h2),
      if_neg (not_le.mpr hlt), if_pos hcond]

/-- Witness for C4: with an empty store, amount exactly 500 and a date 40
days in the past passes validation (failing later as not-found, not as a
validation error), and a date 29 days back is rejected as too recent. -/
theorem C4_validation_boundaries_witness :
    (compare_investment [] 20000 0 1 2 19960 500).isValidationError = false
    ∧ compare_investment [] 20000 3600 1 2 19971 500 =
        .validationError .dateTooRecent := by
  constructor
  · exact (C4_validation_boundaries [] 20000 0 1 2 19960 500).1 rfl
      (by decide) (by decide)
  · exact (C4_validation_boundaries [] 20000 3600 1 2 19971
      500).2.2.2.2.2.2 (by decide) (by decide) (by decide) (by decide)
      (by decide)

/-! ## Claim C7: return identity and the annualized-return formula -/

lemma get_current_nav_inv {m : NavMap} {code : ℕ} {sch : NavScheme}
    {ce : NavEntry} (hlk : m.lookup code = some sch)
    (h : get_current_nav m code = some ce) :
    ce ∈ sch.data ∧ ∀ x ∈ sch.data, x.date ≤ ce.date := by
  unfold get_current_nav at h
  simp only [hlk] at h
  cases hd : sch.data with
  | nil => rw [hd] at h; simp at h
  | cons e es =>
    rw [hd] at h
    simp only [Option.some.injEq] at h
    rw [← h]
    exact ⟨foldl_laterEntry_mem es e,
      fun x hx => date_le_foldl_laterEntry es e x hx⟩

/-- The resolver returns the entry itself, with `exact_match = true`,
when queried at the date of a stored entry (dates distinct). -/
lemma resolver_at_entry_date {m : NavMap} {code : ℕ} {sch : NavScheme}
    {e : NavEntry} (hlk : m.lookup code = some sch)
    (hnodup : (sch.data.map NavEntry.date).Nodup) (he : e ∈ sch.data) :
    get_nav_on_date m code e.date = .navPoint e.nav e.date true := by
  have hne : sch.data ≠ [] := List.ne_nil_of_mem he
  obtain ⟨s, hst⟩ : ∃ s, fundStartDate sch.data = some s := by
    cases hfs : fundStartDate sch.data with
    | none => exact absurd ((fundStartDate_none_iff _).mp hfs) hne
    | some s => exact ⟨s, rfl⟩
  obtain ⟨hsmem, hsmin⟩ := fundStartDate_spec _ _ hst
  unfold get_nav_on_date
  simp only [hlk, hst]
  rw [if_neg (not_lt.mpr (hsmin e.date (List.mem_map_of_mem _ he)))]
  have hsome : (sch.data.find? (fun x => x.date == e.date)).isSome :=
    List.find?_isSome.mpr ⟨e, he, by simp⟩
  cases hf : sch.data.find? (fun x => x.date == e.date) with
  | none => rw [hf] at hsome; simp at hsome
  | some e2 =>
    have he2 := List.mem_of_find?_eq_some hf
    have hp := List.find?_some hf
    simp only [beq_iff_eq] at hp
    have he2e : e2 = e := List.inj_on_of_nodup_map hnodup he2 he hp
    subst he2e
    rfl

/-- C7.  Single-day hold: when the purchase date equals the fund's
latest observation date, the stored current value equals the (rounded)
amount, the elapsed days are 0 and the stored annualized return is
exactly 0.  In general, every successful result carries as `xirr` the
rounded value of `(pow(current_value/amount, 1/years) - 1) * 100` when
`years = days/365.25 > 0` and `0` otherwise. -/
theorem C7_return_identity (m : NavMap) (code : ℕ) (sch : NavScheme)
    (ce : NavEntry) (amt : ℚ)
    (hlk : m.lookup code = some sch)
    (hnodup : (sch.data.map NavEntry.date).Nodup)
    (hcur : get_current_nav m code = some ce)
    (hpos : 0 < ce.nav) :
    (∃ r, calculate_returns m code amt ce.date = .ok r ∧
      r.current_value = round2 amt ∧ r.duration_days = 0 ∧
      r.returns_xirr = 0)
    ∧ (∀ (d : Date) (pnav : ℚ) (pdate : Date) (ex : Bool) (ce2 : NavEntry),
      get_nav_on_date m code d = .navPoint pnav pdate ex →
      get_current_nav m code = some ce2 →
      ∃ r, calculate_returns m code amt d = .ok r ∧
        r.duration_days = (ce2.date : ℤ) - (d : ℤ) ∧
        r.returns_xirr = round2R
          (if 0 < ((((ce2.date : ℤ) - (d : ℤ) : ℤ) : ℚ) / (365.25 : ℚ)) then
            (((amt / pnav * ce2.nav) / amt : ℚ) : ℝ) ^
              ((1 : ℝ) /
                ((((((ce2.date : ℤ) - (d : ℤ) : ℤ) : ℚ) / (365.25 : ℚ)) : ℚ) : ℝ))
              * 100 - 100
          else 0)) := by
  constructor
  · obtain ⟨hce_mem, -⟩ := get_current_nav_inv hlk hcur
    rw [calculate_returns_ok_eq amt (resolver_at_entry_date hlk hnodup hce_mem) hcur]
    refine ⟨_, rfl, ?_, ?_, ?_⟩
    · show round2 (amt / ce.nav * ce.nav) = round2 amt
      rw [div_mul_cancel₀ amt (ne_of_gt hpos)]
    · exact sub_self _
    · show round2R (xirrRaw amt (amt / ce.nav * ce.nav)
        ((((ce.date : ℤ) - (ce.date : ℤ) : ℤ) : ℚ) / (365.25 : ℚ))) = 0
      rw [show ((ce.date : ℤ) - (ce.date : ℤ)) = (0 : ℤ) from sub_self _]
      simp [xirrRaw, round2R]
  · intro d pnav pdate ex ce2 h1 h2
    rw [calculate_returns_ok_eq amt h1 h2]
    refine ⟨_, rfl, rfl, ?_⟩
    show round2R (xirrRaw amt (amt / pnav * ce2.nav)
      ((((ce2.date : ℤ) - (d : ℤ) : ℤ) : ℚ) / (365.25 : ℚ))) = _
    unfold xirrRaw
    by_cases hy : 0 < ((((ce2.date : ℤ) - (d : ℤ) : ℤ) : ℚ) / (365.25 : ℚ))
    · rw [if_pos hy, if_pos hy]
      ring_nf
    · rw [if_neg hy, if_neg hy]

/-- Witness for C7 at fund 100 of `sampleNav` with amount 50000. -/
theorem C7_return_identity_witness :
    (∃ r, calculate_returns sampleNav 100 50000
        (datetime 2024 1 1) = .ok r ∧
      r.current_value = round2 50000 ∧ r.duration_days = 0 ∧
      r.returns_xirr = 0) :=
  (C7_return_identity sampleNav 100 navX ⟨datetime 2024 1 1, 15⟩ 50000
    (by decide) (by decide) (by decide) (by decide)).1

/-! ## Claim C5: the concrete scenario of the spec -/

set_option maxRecDepth 10000


/-- Counterexample to C5: the elapsed duration of the scenario is 365
days (2023 is not a leap year), not 366 as the claim asserts. -/
theorem C5_scenario_counterexample :
    c5Result.daysOf = some 365 ∧ c5Result.daysOf ≠ some 366 := by
  constructor
  · decide
  · decide

lemma c5_nat_lower : (15004:ℕ)^1460 * 2^1461 < 3^1461 * 10000^1460 := by decide

lemma c5_nat_upper : 3^1461 * 100000^1460 < (150044:ℕ)^1460 * 2^1461 := by decide

lemma c5_pow_eq : ((3/2:ℝ)^((1461:ℝ)/1460))^(1460:ℕ) = (3/2:ℝ)^(1461:ℕ) := by
  rw [← Real.rpow_natCast ((3/2:ℝ)^((1461:ℝ)/1460)) 1460,
    ← Real.rpow_mul (by norm_num : (0:ℝ) ≤ 3/2),
    ← Real.rpow_natCast (3/2:ℝ) 1461]
  norm_num

lemma c5_lower : (15004/10000 : ℝ) < (3/2:ℝ)^((1461:ℝ)/1460) := by
  have hBpos : (0:ℝ) < (3/2:ℝ)^((1461:ℝ)/1460) :=
    Real.rpow_pos_of_pos (by norm_num) _
  apply lt_of_pow_lt_pow_left₀ 1460 (le_of_lt hBpos)
  rw [c5_pow_eq, div_pow, div_pow, div_lt_div_iff₀ (by positivity) (by positivity)]
  exact_mod_cast c5_nat_lower

lemma c5_upper : (3/2:ℝ)^((1461:ℝ)/1460) < (150044/100000 : ℝ) := by
  apply lt_of_pow_lt_pow_left₀ 1460 (by norm_num : (0:ℝ) ≤ 150044/100000)
  rw [c5_pow_eq, div_pow, div_pow, div_lt_div_iff₀ (by positivity) (by positivity)]
  exact_mod_cast c5_nat_upper

/-- The scenario's annualized return, rounded to 2 decimals, is 50.04
(the unrounded value is `(1.5^(1461/1460) - 1) * 100 ≈ 50.0417`). -/
lemma c5_round :
    round2R (((3/2:ℝ)^((1461:ℝ)/1460) - 1) * 100) = 50.04 := by
  have h1 := c5_lower
  have h2 := c5_upper
  unfold round2R
  have hr : round ((((3/2:ℝ)^((1461:ℝ)/1460) - 1) * 100) * 100) = (5004:ℤ) := by
    rw [round_eq, Int.floor_eq_iff]
    constructor
    · push_cast; nlinarith
    · push_cast; nlinarith
  rw [hr]
  norm_num

/-- The scenario's stored `xirr` equals the claimed formula shape with
the code's exponent `1/years = 365.25/365 = 1461/1460`. -/
lemma c5_xirr_eq :
    xirrRaw 50000 ((50000:ℚ) / 10 * 15) (((365:ℤ) : ℚ) / (365.25:ℚ)) =
      ((3/2:ℝ)^((1461:ℝ)/1460) - 1) * 100 := by
  unfold xirrRaw
  rw [if_pos (by norm_num)]
  norm_num

/-- Evaluation of `round2` at a known floor value. -/
lemma round2_eval (q : ℚ) (z : ℤ) (h1 : (z : ℚ) ≤ q * 100 + 1 / 2)
    (h2 : q * 100 + 1 / 2 < z + 1) : round2 q = (z : ℚ) / 100 := by
  unfold round2
  rw [Int.floor_eq_iff.mpr ⟨h1, h2⟩]

/-- Evaluation of `round4` at a known floor value. -/
lemma round4_eval (q : ℚ) (z : ℤ) (h1 : (z : ℚ) ≤ q * 10000 + 1 / 2)
    (h2 : q * 10000 + 1 / 2 < z + 1) : round4 q = (z : ℚ) / 10000 := by
  unfold round4
  rw [Int.floor_eq_iff.mpr ⟨h1, h2⟩]

/-- C5 as amended: with the scenario data, the result has
units = 5000, current value = 75000, absolute return = 25000,
percentage 50, 365 elapsed days (not 366), and a stored annualized
return of 50.04 — the code's formula is
`(1.5)^(1/years) - 1` with `years = 365/365.25`, i.e. exponent
`365.25/365`, not the spec scenario's `(1.5)^(365/366.25) - 1 ≈ 49.86`. -/
theorem C5_scenario_amended :
    c5Result.unitsOf = some 5000
    ∧ c5Result.valueOf = some 75000
    ∧ c5Result.absoluteOf = some 25000
    ∧ c5Result.percentageOf = some 50
    ∧ c5Result.daysOf = some 365
    ∧ c5Result.xirrOf = some (50.04 : ℝ) := by
  have h1 : get_nav_on_date sampleNav 100 (datetime 2023 1 1) =
      .navPoint 10 (datetime 2023 1 1) true := by decide
  have h2 : get_current_nav sampleNav 100 =
      some ⟨datetime 2024 1 1, 15⟩ := by decide
  have c5ok := calculate_returns_ok_eq 50000 h1 h2
  refine ⟨?_, ?_, ?_, ?_, by decide, ?_⟩
  · unfold c5Result
    rw [c5ok]
    show some (round4 ((50000:ℚ) / 10)) = some 5000
    rw [round4_eval ((50000:ℚ) / 10) 50000000 (by norm_num) (by norm_num)]
    norm_num
  · unfold c5Result
    rw [c5ok]
    show some (round2 ((50000:ℚ) / 10 * 15)) = some 75000
    rw [round2_eval ((50000:ℚ) / 10 * 15) 7500000 (by norm_num) (by norm_num)]
    norm_num
  · unfold c5Result
    rw [c5ok]
    show some (round2 ((50000:ℚ) / 10 * 15 - 50000)) = some 25000
    rw [round2_eval ((50000:ℚ) / 10 * 15 - 50000) 2500000 (by norm_num)
      (by norm_num)]
    norm_num
  · unfold c5Result
    rw [c5ok]
    show some (round2 (((50000:ℚ) / 10 * 15 - 50000) / 50000 * 100)) = some 50
    rw [round2_eval (((50000:ℚ) / 10 * 15 - 50000) / 50000 * 100) 5000
      (by norm_num) (by norm_num)]
    norm_num
  · unfold c5Result
    rw [c5ok]
    show some (round2R (xirrRaw 50000 ((50000:ℚ) / 10 * 15)
      (((((datetime 2024 1 1 : ℕ) : ℤ) - ((datetime 2023 1 1 : ℕ) : ℤ) : ℤ) : ℚ) /
        (365.25:ℚ)))) = _
    have hdays : (((datetime 2024 1 1 : ℕ) : ℤ) -
        ((datetime 2023 1 1 : ℕ) : ℤ)) = (365:ℤ) := by decide
    rw [hdays, c5_xirr_eq, c5_round]

/-! ## Claims C6 and C9: catalog ranking order and search truncation -/

lemma pairLe_trans {x y z : ℚ × ℚ} (h1 : pairLe x y = true)
    (h2 : pairLe y z = true) : pairLe x z = true := by
  simp only [pairLe, Bool.or_eq_true, decide_eq_true_eq, Bool.and_eq_true,
    beq_iff_eq] at h1 h2 ⊢
  rcases h1 with h1 | ⟨h1e, h1le⟩
  · rcases h2 with h2 | ⟨h2e, h2le⟩
    · exact Or.inl (lt_trans h1 h2)
    · exact Or.inl (h2e ▸ h1)
  · rcases h2 with h2 | ⟨h2e, h2le⟩
    · exact Or.inl (h1e ▸ h2)
    · exact Or.inr ⟨h1e.trans h2e, le_trans h1le h2le⟩

lemma pairLe_total (x y : ℚ × ℚ) : pairLe x y || pairLe y x := by
  simp only [pairLe, Bool.or_eq_true, decide_eq_true_eq, Bool.and_eq_true,
    beq_iff_eq]
  rcases lt_trichotomy x.1 y.1 with h | h | h
  · exact Or.inl (Or.inl h)
  · rcases le_total x.2 y.2 with h2 | h2
    · exact Or.inl (Or.inr ⟨h, h2⟩)
    · exact Or.inr (Or.inr ⟨h.symm, h2⟩)
  · exact Or.inr (Or.inl h)

lemma searchLe_trans : ∀ (a b c : SearchRow),
    searchLe a b → searchLe b c → searchLe a c :=
  fun _ _ _ h1 h2 => pairLe_trans h2 h1

lemma searchLe_total : ∀ (a b : SearchRow), searchLe a b || searchLe b a :=
  fun a b => pairLe_total (searchKey b) (searchKey a)

lemma allLe_trans : ∀ (a b c : AllRow), allLe a b → allLe b c → allLe a c := by
  intro a b c h1 h2
  simp only [allLe, decide_eq_true_eq] at h1 h2 ⊢
  exact le_trans h2 h1

lemma allLe_total : ∀ (a b : AllRow), allLe a b || allLe b a := by
  intro a b
  simp only [allLe, Bool.or_eq_true, decide_eq_true_eq]
  exact (le_total (allKey b) (allKey a))

lemma topLe_trans : ∀ (a b c : TopRow), topLe a b → topLe b c → topLe a c := by
  intro a b c h1 h2
  simp only [topLe, decide_eq_true_eq] at h1 h2 ⊢
  exact le_trans h2 h1

lemma topLe_total : ∀ (a b : TopRow), topLe a b || topLe b a := by
  intro a b
  simp only [topLe, Bool.or_eq_true, decide_eq_true_eq]
  exact (le_total (topKey b) (topKey a))

/-- C6 as amended: the fund search sorts its rows descending by
(score.total if present else composite score) with the displayed CAGR as
tie-break; the full fund listing and the top-funds ranking sort
descending by the score key only (no CAGR tie-break); and the
full-listing rows never carry a score object, so the locally computed
composite score is always the key there. -/
theorem C6_ranking_sort_amended :
    (∀ (fd : FundsData) (q : List Char) (ro : Bool) (ma mc : ℚ),
      (search_funds fd q ro ma mc).results.Pairwise
        (fun a b => pairLe (searchKey b) (searchKey a) = true))
    ∧ (∀ (fd : FundsData) (ro : Bool),
      (get_all_funds fd ro).funds.Pairwise (fun a b => allKey b ≤ allKey a)
      ∧ ∀ r ∈ (get_all_funds fd ro).funds, r.score = none)
    ∧ (∀ (fd : FundsData) (limit : ℕ) (category risk : Option (List Char)),
      (get_top_funds fd limit category risk).results.Pairwise
        (fun a b => topKey b ≤ topKey a)) := by
  refine ⟨?_, ?_, ?_⟩
  · intro fd q ro ma mc
    unfold search_funds
    split
    · exact List.Pairwise.nil
    · exact ((List.sorted_mergeSort searchLe_trans searchLe_total
        (searchMatches fd q ro ma mc)).sublist
          (List.take_sublist 20 _)).imp (fun h => h)
  · intro fd ro
    constructor
    · exact (List.sorted_mergeSort allLe_trans allLe_total _).imp
        (fun h => of_decide_eq_true h)
    · intro r hr
      rw [show (get_all_funds fd ro).funds =
          (fd.filterMap fun nd =>
            if ro && !nd.2.metrics.is_statistically_reliable then none
            else some ⟨nd.1, nd.2.canonical_code,
              (if truthy nd.2.metrics.cagr then
                some (round2 (getQ nd.2.metrics.cagr * 100)) else none),
              round1 (getQ nd.2.metrics.fund_age_years),
              nd.2.metrics.is_statistically_reliable,
              calculate_composite_score nd.2.metrics, none⟩).mergeSort allLe
        from rfl] at hr
      rw [List.mem_mergeSort] at hr
      obtain ⟨nd, hnd, hf⟩ := List.mem_filterMap.mp hr
      split at hf
      · simp at hf
      · obtain heq := Option.some.inj hf
        rw [← heq]
  · intro fd limit category risk
    exact ((List.sorted_mergeSort topLe_trans topLe_total _).sublist
      (List.take_sublist limit _)).imp (fun h => of_decide_eq_true h)


lemma c6_compA : calculate_composite_score mCexA = 15 := by
  norm_num [calculate_composite_score, mCexA, truthy, getQ, Nat.min_def]

lemma c6_compB : calculate_composite_score mCexB = 15 := by
  norm_num [calculate_composite_score, mCexB, truthy, getQ, Nat.min_def]

lemma c6_rows_sorted : List.Pairwise (fun a b => allLe a b = true)
    [c6RowA, c6RowB] := by
  rw [List.pairwise_cons]
  refine ⟨?_, by simp⟩
  intro b hb
  rw [List.mem_singleton.mp hb]
  simp [allLe, allKey, c6RowA, c6RowB, scoreOrComposite, c6_compA, c6_compB]

/-- The full listing of `fdCex` is exactly the two rows in catalog
order: equal keys are left in insertion order (stable sort), so no CAGR
tie-break happens. -/
lemma c6_funds_eq : (get_all_funds fdCex false).funds = [c6RowA, c6RowB] := by
  have hfm : (get_all_funds fdCex false).funds =
      List.mergeSort [c6RowA, c6RowB] allLe := rfl
  rw [hfm, List.mergeSort_of_sorted c6_rows_sorted]

/-- Counterexample to C6: in the full fund listing over `fdCex`, funds A
and B tie on the composite score (both 15), fund A has the strictly
smaller CAGR, yet A is listed first — the tie is not broken by CAGR
descending (the listing keeps catalog order on ties). -/
theorem C6_ranking_sort_counterexample :
    (get_all_funds fdCex false).funds.map AllRow.name = [['A'], ['B']]
    ∧ (get_all_funds fdCex false).funds.map AllRow.composite_score = [15, 15]
    ∧ getQ mCexA.cagr < getQ mCexB.cagr := by
  refine ⟨?_, ?_, ?_⟩
  · rw [c6_funds_eq]; rfl
  · rw [c6_funds_eq]
    simp [c6RowA, c6RowB, c6_compA, c6_compB]
  · norm_num [mCexA, mCexB, getQ]

/-- Witness for C6 (amended): the listing over `fdCex` is sorted by the
score key, and its first row carries no score object. -/
theorem C6_ranking_sort_amended_witness :
    (get_all_funds fdCex false).funds.Pairwise
      (fun a b => allKey b ≤ allKey a)
    ∧ c6RowA.score = none :=
  ⟨(C6_ranking_sort_amended.2.1 fdCex false).1,
    (C6_ranking_sort_amended.2.1 fdCex false).2 c6RowA
      (by rw [c6_funds_eq]; exact List.mem_cons_self _ _)⟩

/-- C9.  For queries of length at least 2, the search response returns
the first 20 rows of the sorted match list (at most 20 rows, exactly 20
when more match), the sorted list is a permutation of the filtered
matches (nothing else is dropped), and the echoed query and filter
fields are independent of the truncation. -/
theorem C9_search_truncation (fd : FundsData) (q : List Char) (ro : Bool)
    (ma mc : ℚ) (hq : 2 ≤ q.length) :
    (search_funds fd q ro ma mc).results =
      (searchSorted fd q ro ma mc).take 20
    ∧ (search_funds fd q ro ma mc).results.length =
      min 20 (searchSorted fd q ro ma mc).length
    ∧ (search_funds fd q ro ma mc).results.length ≤ 20
    ∧ (searchSorted fd q ro ma mc).Perm (searchMatches fd q ro ma mc)
    ∧ (search_funds fd q ro ma mc).query = q
    ∧ (search_funds fd q ro ma mc).filters = some ⟨ro, ma, mc⟩ := by
  have hnot : ¬(q.length < 2) := not_lt.mpr hq
  unfold search_funds
  rw [if_neg hnot]
  exact ⟨rfl, List.length_take 20 _, List.length_take_le 20 _,
    List.mergeSort_perm _ _, rfl, rfl⟩

/-- Witness for C9 on the two-fund catalog with query "ab". -/
theorem C9_search_truncation_witness :
    (search_funds fdCex ['a','b'] false 0 0).results =
      (searchSorted fdCex ['a','b'] false 0 0).take 20
    ∧ (search_funds fdCex ['a','b'] false 0 0).results.length =
      min 20 (searchSorted fdCex ['a','b'] false 0 0).length
    ∧ (search_funds fdCex ['a','b'] false 0 0).results.length ≤ 20
    ∧ (searchSorted fdCex ['a','b'] false 0 0).Perm
      (searchMatches fdCex ['a','b'] false 0 0)
    ∧ (search_funds fdCex ['a','b'] false 0 0).query = ['a','b']
    ∧ (search_funds fdCex ['a','b'] false 0 0).filters =
      some ⟨false, 0, 0⟩ :=
  C9_search_truncation fdCex ['a','b'] false 0 0 (by decide)
